import Mathlib

/-!
Verification of the render-and-download backend (`src/index.js`).

The server exposes one endpoint, `POST /api/render-and-download`, which
validates the request, allocates a unique output path, shells out to the
Remotion renderer, classifies the outcome from the exit code and stderr,
streams the artifact back with `res.download`, and deletes the temporary
file on every path that rendered.

The embedding below is a shallow model of that file: the external world
(uuid generation, `Date.now()`, the subprocess result, the filesystem,
the HTTP transport) is an explicit environment record, and the handler is
a pure function from the request and that environment to an outcome
record describing the response sent, the unlink calls issued, and whether
the artifact file survives the request.
-/

set_option linter.unusedVariables false

namespace RenderServer

/-- JSON values, the type of `inputProps` (an arbitrary JSON-serializable
structure parsed from the request body). Numbers are modelled as integers;
no claim depends on numeric serialization. -/
inductive Json where
  | null
  | bool (b : Bool)
  | num (n : Int)
  | str (s : String)
  | arr (xs : List Json)
  | obj (kvs : List (String × Json))
deriving Repr

/-- Modelled from the platform: one character of `JSON.stringify` string
escaping (quote, backslash and common control characters). -/
def jsonEscapeChar (c : Char) : String :=
  if c = '"' then "\\\""
  else if c = '\\' then "\\\\"
  else if c = '\n' then "\\n"
  else if c = '\r' then "\\r"
  else if c = '\t' then "\\t"
  else String.singleton c

/-- Modelled from the platform: `JSON.stringify` escaping of a string body. -/
def jsonEscape (s : String) : String :=
  String.join (s.data.map jsonEscapeChar)

mutual

/-- Modelled from the platform: `JSON.stringify`. -/
def jsonStringify : Json → String
  | .null => "null"
  | .bool true => "true"
  | .bool false => "false"
  | .num n => toString n
  | .str s => "\"" ++ jsonEscape s ++ "\""
  | .arr xs => "[" ++ jsonStringifyArr xs ++ "]"
  | .obj kvs => "\x7b" ++ jsonStringifyMembers kvs ++ "\x7d"

/-- Comma-separated serialization of array elements. -/
def jsonStringifyArr : List Json → String
  | [] => ""
  | [x] => jsonStringify x
  | x :: y :: xs => jsonStringify x ++ "," ++ jsonStringifyArr (y :: xs)

/-- Comma-separated serialization of object members. -/
def jsonStringifyMembers : List (String × Json) → String
  | [] => ""
  | [(k, v)] => "\"" ++ jsonEscape k ++ "\":" ++ jsonStringify v
  | (k, v) :: m :: kvs =>
      "\"" ++ jsonEscape k ++ "\":" ++ jsonStringify v ++ "," ++
        jsonStringifyMembers (m :: kvs)

end

/-- Boolean prefix test on character lists. -/
def listIsPrefix : List Char → List Char → Bool
  | [], _ => true
  | _ :: _, [] => false
  | a :: as, b :: bs => a == b && listIsPrefix as bs

/-- Boolean substring test on character lists. -/
def listContainsSub (pat : List Char) : List Char → Bool
  | [] => listIsPrefix pat []
  | c :: rest => listIsPrefix pat (c :: rest) || listContainsSub pat rest

/-- Modelled from the platform: JavaScript `String.prototype.includes`,
a substring test. -/
def jsIncludes (s pat : String) : Bool :=
  listContainsSub pat.data s.data

/-- Modelled from the platform: JavaScript `String.prototype.toLowerCase`
(ASCII case folding; the strings involved here are ASCII). -/
def jsToLower (s : String) : String :=
  ⟨s.data.map Char.toLower⟩

/-- Substring containment as a proposition: `pat` occurs inside `s`. -/
def ContainsSub (s pat : String) : Prop :=
  ∃ a b, s = a ++ pat ++ b

/-- Split a character list into its `/`-separated segments. -/
def splitSlash : List Char → List (List Char)
  | [] => [[]]
  | c :: cs =>
    let r := splitSlash cs
    if c = '/' then [] :: r
    else (c :: r.headD []) :: r.tail

/-- Modelled from the platform: one step of Node path normalization over a
stack of resolved segments — empty and `.` segments are dropped, `..` pops
the previous segment (kept literally at the root of a relative path,
dropped at the root of an absolute one), and any other segment is pushed. -/
def stepSeg (isAbs : Bool) (stack : List (List Char)) (seg : List Char) : List (List Char) :=
  if seg = [] ∨ seg = ['.'] then stack
  else if seg = ['.', '.'] then
    match stack.getLast? with
    | some l => if l = ['.', '.'] then stack ++ [seg] else stack.dropLast
    | none => if isAbs then [] else [seg]
  else stack ++ [seg]

/-- Resolve all segments of a path left to right. -/
def normSegs (isAbs : Bool) (segs : List (List Char)) : List (List Char) :=
  segs.foldl (stepSeg isAbs) []

/-- Whether a path string is absolute (starts with `/`). -/
def isAbsPath (s : String) : Bool :=
  match s.data with
  | [] => false
  | c :: _ => c == '/'

/-- Each segment prefixed by a separator, concatenated. -/
def slashPrefixed : List (List Char) → List Char
  | [] => []
  | s :: ss => ('/' :: s) ++ slashPrefixed ss

/-- Segments joined by `/`. -/
def intercalateSlash : List (List Char) → List Char
  | [] => []
  | s :: ss => s ++ slashPrefixed ss

/-- Render the resolved segment stack back into a path string. -/
def renderNormalized (isAbs : Bool) (stack : List (List Char)) : String :=
  if isAbs then
    if stack = [] then "/" else ⟨'/' :: intercalateSlash stack⟩
  else
    if stack = [] then "." else ⟨intercalateSlash stack⟩

/-- Modelled from the platform: Node `path.normalize` (posix) — resolves
`.` and `..` segments and collapses repeated separators. (Preservation of
a trailing separator is omitted: every path the server builds ends in
`.mp4`.) -/
def pathNormalize (s : String) : String :=
  renderNormalized (isAbsPath s) (normSegs (isAbsPath s) (splitSlash s.data))

/-- Modelled from the platform: Node `path.join(dir, file)` (posix) —
empty arguments are ignored, the rest are joined with `/` and the result
is normalized; with no non-empty argument the result is `.`. -/
def pathJoin (dir file : String) : String :=
  if dir = "" ∧ file = "" then "."
  else if dir = "" then pathNormalize file
  else if file = "" then pathNormalize dir
  else pathNormalize (dir ++ "/" ++ file)

/-- The fixed startup configuration (`remotionProjectDir`,
`remotionEntryPoint`, `outputDir` in `src/index.js`): paths resolved once
from `__dirname`, external to the per-request logic. -/
structure Config where
  remotionProjectDir : String
  remotionEntryPoint : String
  outputDir : String
deriving Repr, DecidableEq

/-- The parsed request body: `const { compositionId, inputProps } = req.body`.
Either field may be absent. -/
structure RenderRequest where
  compositionId : Option String
  inputProps : Option Json
deriving Repr

/-- JavaScript truthiness test for `!compositionId`: an absent value and
the empty string are falsy. -/
def isFalsyStr : Option String → Bool
  | none => true
  | some s => s == ""

/-- What the external subprocess did: its exit code and captured output
channels. -/
structure ExecOutcome where
  exitCode : Nat
  stdout : String
  stderr : String
deriving Repr, DecidableEq

/-- A JavaScript `Error` as the handler observes it: the message, and the
`stderr`/`stdout` fields that `exec` attaches (absent on a hand-thrown
`Error`). -/
structure JsError where
  message : String
  stderr : Option String
  stdout : Option String
deriving Repr, DecidableEq

/-- `propsString` (line 42): `JSON.stringify(inputProps || \x7b\x7d)`. -/
def propsStringOf (inputProps : Option Json) : String :=
  jsonStringify (inputProps.getD (Json.obj []))

/-- `escapedPropsString` (line 44): every single quote in `propsString`
replaced by the sequence quote-backslash-quote-quote. -/
def escapedPropsStringOf (inputProps : Option Json) : String :=
  (propsStringOf inputProps).replace "\x27" "\x27\\\x27\x27"

/-- `command` (line 48): the shell command string handed to `exec`. The
entry point and output path are wrapped in double quotes; `compositionId`
is interpolated bare; no props argument appears. -/
def remotionCommand (cfg : Config) (compositionId outputPath : String) : String :=
  "npx remotion render \"" ++ cfg.remotionEntryPoint ++ "\" " ++
    compositionId ++ " \"" ++ outputPath ++ "\""

/-- `runRemotionRender` (lines 41-73): builds the command, runs it, and
classifies the result. `exec` rejects a non-zero exit with an error whose
message is `Command failed: <command>\n<stderr>` (platform semantics) and
which carries the captured channels; on a zero exit the code additionally
throws when stderr is non-empty and contains "error" case-insensitively.
Otherwise it returns success. -/
def runRemotionRender (cfg : Config) (compositionId outputPath : String)
    (inputProps : Option Json) (exec : ExecOutcome) : Except JsError Unit :=
  let propsString := propsStringOf inputProps
  let escapedPropsString := escapedPropsStringOf inputProps
  let command := remotionCommand cfg compositionId outputPath
  if exec.exitCode ≠ 0 then
    Except.error
      { message := "Command failed: " ++ command ++ "\n" ++ exec.stderr
        stderr := some exec.stderr
        stdout := some exec.stdout }
  else if exec.stderr != "" && jsIncludes (jsToLower exec.stderr) "error" then
    Except.error
      { message := "Remotion rendering failed. Stderr: " ++ exec.stderr
        stderr := none
        stdout := none }
  else
    Except.ok ()

/-- The per-request external environment: the uuid drawn at line 83, the
timestamp drawn at line 85, the subprocess outcome, whether a file exists
at the output path once the render step finishes, whether streaming the
file to the client succeeds, whether a transport failure happens after the
response headers were committed, and whether `fs.unlink` succeeds. -/
structure Env where
  uuid : String
  now : Nat
  exec : ExecOutcome
  fileAfterRender : Bool
  transportOk : Bool
  errAfterHeaders : Bool
  unlinkOk : Bool
deriving Repr, DecidableEq

/-- The response the handler commits: a JSON error response with a status,
message and optional `error` field; the artifact stream delivered under a
suggested download name; or a stream that was aborted after headers were
already committed (no second response is possible). -/
inductive Response where
  | jsonRes (status : Nat) (message : String) (error : Option String)
  | fileSent (path : String) (downloadName : String)
  | abortedStream
deriving Repr, DecidableEq

/-- Observable outcome of one request: the committed response, whether the
render subprocess was invoked, the allocated output path (if any), the
paths passed to `fs.unlink`, and whether a file remains at the output path
after the request completes. -/
structure Outcome where
  response : Response
  renderInvoked : Bool
  outputPath : Option String
  unlinkAttempts : List String
  fileRemains : Bool
deriving Repr, DecidableEq

/-- The `POST /api/render-and-download` handler (lines 76-139).

Validation: a falsy `compositionId` gets an immediate 400 and nothing else
happens. Otherwise the path `outputDir/<uuid>-<compositionId>.mp4` and the
download name `<compositionId>-<now>.mp4` are allocated and the render runs.

On render success, `res.download` streams the file: if the file is absent
the callback receives an error before any headers are sent; if the
transport fails the callback receives an error with headers possibly
already committed; the callback sends a 500 only when headers were not
sent, and always unlinks the output path. On render failure the catch
block unlinks the path only if a file exists there, then responds 500
with the error message (headers cannot have been sent yet).

`fs.unlink` on an existing file succeeds iff the environment permits it;
a failed or skipped unlink of an existing file leaves it in place. -/
def handleRequest (cfg : Config) (req : RenderRequest) (env : Env) : Outcome :=
  if isFalsyStr req.compositionId then
    { response := .jsonRes 400 "compositionId is required." none
      renderInvoked := false
      outputPath := none
      unlinkAttempts := []
      fileRemains := false }
  else
    let compositionId := req.compositionId.getD ""
    let uniqueFilename := env.uuid ++ "-" ++ compositionId ++ ".mp4"
    let outputPath := pathJoin cfg.outputDir uniqueFilename
    let finalDownloadName := compositionId ++ "-" ++ toString env.now ++ ".mp4"
    match runRemotionRender cfg compositionId outputPath req.inputProps env.exec with
    | .ok _ =>
      let response :=
        if !env.fileAfterRender then
          Response.jsonRes 500 "Error sending the rendered file." none
        else if !env.transportOk then
          if env.errAfterHeaders then Response.abortedStream
          else Response.jsonRes 500 "Error sending the rendered file." none
        else
          Response.fileSent outputPath finalDownloadName
      { response := response
        renderInvoked := true
        outputPath := some outputPath
        unlinkAttempts := [outputPath]
        fileRemains := env.fileAfterRender && !env.unlinkOk }
    | .error e =>
      { response := .jsonRes 500 "Video rendering failed." (some e.message)
        renderInvoked := true
        outputPath := some outputPath
        unlinkAttempts := if env.fileAfterRender then [outputPath] else []
        fileRemains := env.fileAfterRender && !env.unlinkOk }

/-- A concrete startup configuration used to instantiate theorems on
closed inputs. -/
def sampleConfig : Config :=
  { remotionProjectDir := "/srv/frontend"
    remotionEntryPoint := "/srv/frontend/src/remotion/index.js"
    outputDir := "/srv/backend/output" }

theorem jsIncludes_empty : jsIncludes (jsToLower "") "error" = false := rfl

theorem runRemotionRender_ok_iff (cfg : Config) (cid outPath : String)
    (props : Option Json) (exec : ExecOutcome) :
    runRemotionRender cfg cid outPath props exec = Except.ok () ↔
      exec.exitCode = 0 ∧ jsIncludes (jsToLower exec.stderr) "error" = false := by
  unfold runRemotionRender
  by_cases h1 : exec.exitCode = 0
  · by_cases h2 : exec.stderr = ""
    · simp [h1, h2]
      exact jsIncludes_empty
    · by_cases h3 : jsIncludes (jsToLower exec.stderr) "error" <;>
        simp [h1, h2, h3]
  · simp [h1]

theorem handleRequest_outputPath (cfg : Config) (req : RenderRequest) (env : Env)
    (h : isFalsyStr req.compositionId = false) :
    (handleRequest cfg req env).outputPath =
      some (pathJoin cfg.outputDir
        (env.uuid ++ "-" ++ req.compositionId.getD "" ++ ".mp4")) := by
  simp only [handleRequest, h]
  split
  · simp_all
  · split <;> rfl

/-- C3: an invocation is classified as a failure exactly when the process
exits non-zero or its stderr contains "error" as a case-insensitive
substring, and every failure carries the captured stderr text inside its
message; dually, a zero-exit run with no failure signature is a success
even when stderr is non-empty, and a zero-exit run whose stderr carries
the signature is a failure. -/
theorem c3_failure_classification (cfg : Config) (cid outPath : String)
    (props : Option Json) (exec : ExecOutcome) :
    (runRemotionRender cfg cid outPath props exec = Except.ok () ↔
      exec.exitCode = 0 ∧ jsIncludes (jsToLower exec.stderr) "error" = false) ∧
    (∀ err, runRemotionRender cfg cid outPath props exec = Except.error err →
      ContainsSub err.message exec.stderr) := by
  refine ⟨runRemotionRender_ok_iff cfg cid outPath props exec, ?_⟩
  intro err herr
  unfold runRemotionRender at herr
  split at herr
  · rw [Except.error.injEq] at herr
    subst herr
    refine ⟨"Command failed: " ++ remotionCommand cfg cid outPath ++ "\n", "", ?_⟩
    apply String.ext
    simp
  · split at herr
    · rw [Except.error.injEq] at herr
      subst herr
      refine ⟨"Remotion rendering failed. Stderr: ", "", ?_⟩
      apply String.ext
      simp
    · exact absurd herr (by simp)

/-- Witness for C3 at spec scenario 7: exit code zero and stderr
`Error: composition not found` is classified as a failure whose message
carries that stderr text. -/
theorem c3_failure_classification_witness :
    ContainsSub "Remotion rendering failed. Stderr: Error: composition not found"
      "Error: composition not found" :=
  (c3_failure_classification sampleConfig "intro" "/srv/backend/output/u1-intro.mp4"
      none ⟨0, "", "Error: composition not found"⟩).2
    { message := "Remotion rendering failed. Stderr: Error: composition not found"
      stderr := none
      stdout := none }
    rfl

/-- C4: a request with a missing or empty compositionId gets a 400
client-error response, the render is never invoked, no output path is
allocated, no unlink happens and no file exists afterwards. -/
theorem c4_missing_composition_rejected (cfg : Config) (req : RenderRequest) (env : Env)
    (h : req.compositionId = none ∨ req.compositionId = some "") :
    handleRequest cfg req env =
      { response := Response.jsonRes 400 "compositionId is required." none
        renderInvoked := false
        outputPath := none
        unlinkAttempts := []
        fileRemains := false } := by
  have hf : isFalsyStr req.compositionId = true := by
    rcases h with h | h <;> simp [isFalsyStr, h]
  simp [handleRequest, hf]

/-- Witness for C4: a concrete request with no compositionId. -/
theorem c4_missing_composition_rejected_witness :
    handleRequest sampleConfig ⟨none, none⟩
        ⟨"u1", 7, ⟨0, "", ""⟩, true, true, false, true⟩ =
      { response := Response.jsonRes 400 "compositionId is required." none
        renderInvoked := false
        outputPath := none
        unlinkAttempts := []
        fileRemains := false } :=
  c4_missing_composition_rejected sampleConfig ⟨none, none⟩
    ⟨"u1", 7, ⟨0, "", ""⟩, true, true, false, true⟩ (Or.inl rfl)

/-- C1: once a request reaches the render stage, deletion of the output
path is attempted on every exit path that can leave a file — always on the
success branch (delivery succeeded or failed alike), and on the failure
branch whenever a file exists; the unlink outcome never changes the
committed response; and whenever the attempted deletion succeeds no
artifact file remains after the request completes. -/
theorem c1_cleanup_on_every_path (cfg : Config) (req : RenderRequest) (env : Env)
    (hcid : isFalsyStr req.compositionId = false) :
    (handleRequest cfg req env).renderInvoked = true ∧
    (∀ b, (handleRequest cfg req { env with unlinkOk := b }).response =
      (handleRequest cfg req env).response) ∧
    (env.fileAfterRender = true →
      (handleRequest cfg req env).unlinkAttempts =
        [pathJoin cfg.outputDir (env.uuid ++ "-" ++ req.compositionId.getD "" ++ ".mp4")]) ∧
    (runRemotionRender cfg (req.compositionId.getD "")
        (pathJoin cfg.outputDir (env.uuid ++ "-" ++ req.compositionId.getD "" ++ ".mp4"))
        req.inputProps env.exec = Except.ok () →
      (handleRequest cfg req env).unlinkAttempts =
        [pathJoin cfg.outputDir (env.uuid ++ "-" ++ req.compositionId.getD "" ++ ".mp4")]) ∧
    (env.unlinkOk = true → (handleRequest cfg req env).fileRemains = false) := by
  refine ⟨?_, ?_, ?_, ?_, ?_⟩ <;>
    simp only [handleRequest, hcid, Bool.false_eq_true, if_false]
  · split <;> rfl
  · intro b
    cases hr : runRemotionRender cfg (req.compositionId.getD "")
        (pathJoin cfg.outputDir (env.uuid ++ "-" ++ req.compositionId.getD "" ++ ".mp4"))
        req.inputProps env.exec <;> simp [hr]
  · intro hf
    cases hr : runRemotionRender cfg (req.compositionId.getD "")
        (pathJoin cfg.outputDir (env.uuid ++ "-" ++ req.compositionId.getD "" ++ ".mp4"))
        req.inputProps env.exec <;> simp [hr, hf]
  · intro hok
    simp [hok]
  · intro hu
    cases hr : runRemotionRender cfg (req.compositionId.getD "")
        (pathJoin cfg.outputDir (env.uuid ++ "-" ++ req.compositionId.getD "" ++ ".mp4"))
        req.inputProps env.exec <;> simp [hr, hu]

/-- Witness for C1: on a concrete successful render with a file present,
the unlink of the allocated path is attempted. -/
theorem c1_cleanup_on_every_path_witness :
    (handleRequest sampleConfig ⟨some "intro", none⟩
        ⟨"11111111-2222-3333-4444-555555555555", 99, ⟨0, "", ""⟩,
          true, true, false, true⟩).unlinkAttempts =
      ["/srv/backend/output/11111111-2222-3333-4444-555555555555-intro.mp4"] :=
  (c1_cleanup_on_every_path sampleConfig ⟨some "intro", none⟩
      ⟨"11111111-2222-3333-4444-555555555555", 99, ⟨0, "", ""⟩,
        true, true, false, true⟩ rfl).2.2.1 rfl

/-- C2 (code-bug evidence): the serialized `inputProps` never reach the
subprocess. The invocation's entire behavior is independent of
`inputProps`, and at the spec's own concrete scenario the command string
contains neither the serialized props `\x7b"title":"Hello"\x7d` nor even
the substring `Hello` — the escaped props string computed at line 44 is
never used in the command built at line 48. -/
theorem c2_props_never_reach_subprocess :
    (∀ (cfg : Config) (cid outPath : String) (p₁ p₂ : Option Json) (exec : ExecOutcome),
      runRemotionRender cfg cid outPath p₁ exec = runRemotionRender cfg cid outPath p₂ exec) ∧
    propsStringOf (some (Json.obj [("title", Json.str "Hello")])) =
      "\x7b\"title\":\"Hello\"\x7d" ∧
    jsIncludes
      (remotionCommand sampleConfig "intro" (pathJoin sampleConfig.outputDir "u1-intro.mp4"))
      (propsStringOf (some (Json.obj [("title", Json.str "Hello")]))) = false ∧
    jsIncludes
      (remotionCommand sampleConfig "intro" (pathJoin sampleConfig.outputDir "u1-intro.mp4"))
      "Hello" = false := by
  refine ⟨fun cfg cid o p₁ p₂ e => rfl, by decide, by decide, by decide⟩

/-- C5: when the subprocess exits non-zero, the response is a 500 whose
body carries the captured stderr text inside the error message, and when
the attempted cleanup succeeds no partial file remains. -/
theorem c5_nonzero_exit_server_error (cfg : Config) (req : RenderRequest) (env : Env)
    (hcid : isFalsyStr req.compositionId = false)
    (hexit : env.exec.exitCode ≠ 0) :
    (∃ msg, (handleRequest cfg req env).response =
        Response.jsonRes 500 "Video rendering failed." (some msg) ∧
      ContainsSub msg env.exec.stderr) ∧
    (env.unlinkOk = true → (handleRequest cfg req env).fileRemains = false) := by
  have hr : runRemotionRender cfg (req.compositionId.getD "")
      (pathJoin cfg.outputDir (env.uuid ++ "-" ++ req.compositionId.getD "" ++ ".mp4"))
      req.inputProps env.exec =
    Except.error
      { message := "Command failed: " ++
          remotionCommand cfg (req.compositionId.getD "")
            (pathJoin cfg.outputDir (env.uuid ++ "-" ++ req.compositionId.getD "" ++ ".mp4")) ++
          "\n" ++ env.exec.stderr
        stderr := some env.exec.stderr
        stdout := some env.exec.stdout } := by
    unfold runRemotionRender
    simp [hexit]
  constructor
  · refine ⟨"Command failed: " ++
        remotionCommand cfg (req.compositionId.getD "")
          (pathJoin cfg.outputDir (env.uuid ++ "-" ++ req.compositionId.getD "" ++ ".mp4")) ++
        "\n" ++ env.exec.stderr, ?_, ?_⟩
    · simp only [handleRequest, hcid, Bool.false_eq_true, if_false, hr]
    · refine ⟨"Command failed: " ++
        remotionCommand cfg (req.compositionId.getD "")
          (pathJoin cfg.outputDir (env.uuid ++ "-" ++ req.compositionId.getD "" ++ ".mp4")) ++
        "\n", "", ?_⟩
      apply String.ext
      simp
  · intro hu
    simp only [handleRequest, hcid, Bool.false_eq_true, if_false, hr]
    simp [hu]

/-- Witness for C5: a concrete non-zero exit yields the 500 render-failure
response carrying the stderr text `boom`. -/
theorem c5_nonzero_exit_server_error_witness :
    ∃ msg, (handleRequest sampleConfig ⟨some "intro", none⟩
        ⟨"u1", 7, ⟨1, "", "boom"⟩, false, true, false, true⟩).response =
      Response.jsonRes 500 "Video rendering failed." (some msg) ∧
    ContainsSub msg "boom" :=
  (c5_nonzero_exit_server_error sampleConfig ⟨some "intro", none⟩
      ⟨"u1", 7, ⟨1, "", "boom"⟩, false, true, false, true⟩ rfl (by decide)).1

theorem splitSlash_ne_nil (cs : List Char) : splitSlash cs ≠ [] := by
  cases cs with
  | nil => simp [splitSlash]
  | cons c cs => by_cases h : c = '/' <;> simp [splitSlash, h]

theorem splitSlash_no_slash (cs : List Char) (h : ¬ '/' ∈ cs) : splitSlash cs = [cs] := by
  induction cs with
  | nil => rfl
  | cons c cs ih =>
    simp only [List.mem_cons, not_or] at h
    have hc : ¬ c = '/' := fun hcc => h.1 hcc.symm
    simp [splitSlash, hc, ih h.2]

theorem splitSlash_append_slash (xs ys : List Char) :
    splitSlash (xs ++ '/' :: ys) = splitSlash xs ++ splitSlash ys := by
  induction xs with
  | nil => simp [splitSlash]
  | cons c cs ih =>
    by_cases h : c = '/'
    · simp [splitSlash, h, ih]
    · rcases hs : splitSlash cs with _ | ⟨s, ss⟩
      · exact absurd hs (splitSlash_ne_nil cs)
      · simp [splitSlash, h, ih, hs]

theorem normSegs_snoc_normal (isAbs : Bool) (segs : List (List Char)) (f : List Char)
    (h1 : f ≠ []) (h2 : f ≠ ['.']) (h3 : f ≠ ['.', '.']) :
    normSegs isAbs (segs ++ [f]) = normSegs isAbs segs ++ [f] := by
  unfold normSegs
  rw [List.foldl_append]
  simp [stepSeg, h1, h2, h3]

theorem slashPrefixed_snoc_inj : ∀ (S : List (List Char)) (a b : List Char),
    slashPrefixed (S ++ [a]) = slashPrefixed (S ++ [b]) → a = b := by
  intro S
  induction S with
  | nil =>
    intro a b h
    simpa [slashPrefixed] using h
  | cons s S ih =>
    intro a b h
    simp only [List.cons_append, slashPrefixed, List.append_eq, List.cons.injEq,
      true_and] at h
    exact ih a b (List.append_cancel_left h)

theorem intercalateSlash_snoc_inj (S : List (List Char)) (a b : List Char)
    (h : intercalateSlash (S ++ [a]) = intercalateSlash (S ++ [b])) : a = b := by
  cases S with
  | nil => simpa [intercalateSlash, slashPrefixed] using h
  | cons s S =>
    simp only [List.cons_append, intercalateSlash] at h
    exact slashPrefixed_snoc_inj S a b (List.append_cancel_left h)

theorem renderNormalized_snoc_inj (isAbs : Bool) (S : List (List Char)) (a b : List Char)
    (h : renderNormalized isAbs (S ++ [a]) = renderNormalized isAbs (S ++ [b])) : a = b := by
  apply intercalateSlash_snoc_inj S a b
  have ha : S ++ [a] ≠ [] := by simp
  have hb : S ++ [b] ≠ [] := by simp
  cases isAbs <;>
    simp only [renderNormalized, ha, hb, if_false, Bool.false_eq_true, Bool.true_eq,
      if_true, ite_true, ite_false] at h
  · exact congrArg String.data h
  · exact (List.cons.inj (congrArg String.data h)).2

theorem pathJoin_normal_segment (d f : String) (hd : d ≠ "")
    (h1 : f.data ≠ []) (h2 : f.data ≠ ['.']) (h3 : f.data ≠ ['.', '.'])
    (hf : ¬ '/' ∈ f.data) :
    pathJoin d f =
      renderNormalized (isAbsPath d)
        (normSegs (isAbsPath d) (splitSlash d.data) ++ [f.data]) := by
  have hfe : f ≠ "" := by
    intro hh
    apply h1
    rw [hh]
  have hdf : (d ++ "/" ++ f).data = d.data ++ '/' :: f.data := by
    have hsl : ("/" : String).data = ['/'] := rfl
    simp [String.data_append, hsl]
  have habs : isAbsPath (d ++ "/" ++ f) = isAbsPath d := by
    unfold isAbsPath
    rw [hdf]
    rcases hdd : d.data with _ | ⟨c, cs⟩
    · exact absurd (String.ext (by rw [hdd])) hd
    · simp
  have hsplit : splitSlash ((d ++ "/" ++ f).data) = splitSlash d.data ++ [f.data] := by
    rw [hdf, splitSlash_append_slash, splitSlash_no_slash f.data hf]
  have hc1 : ¬ (d = "" ∧ f = "") := fun hco => hd hco.1
  unfold pathJoin
  rw [if_neg hc1, if_neg hd, if_neg hfe]
  unfold pathNormalize
  rw [habs, hsplit, normSegs_snoc_normal _ _ _ h1 h2 h3]

theorem uuidFilename_facts (u c : String) (hu36 : u.length = 36)
    (hus : ¬ '/' ∈ u.data) (hcs : ¬ '/' ∈ c.data) :
    (u ++ "-" ++ c ++ ".mp4").data ≠ [] ∧
    (u ++ "-" ++ c ++ ".mp4").data ≠ ['.'] ∧
    (u ++ "-" ++ c ++ ".mp4").data ≠ ['.', '.'] ∧
    ¬ '/' ∈ (u ++ "-" ++ c ++ ".mp4").data := by
  have h36 : u.data.length = 36 := hu36
  have hm : ("-" : String).data = ['-'] := rfl
  have hmp : (".mp4" : String).data = ['.', 'm', 'p', '4'] := rfl
  have hlen : ((u ++ "-" ++ c ++ ".mp4").data).length = c.data.length + 41 := by
    simp only [String.data_append, List.length_append, hm, hmp, List.length_cons,
      List.length_nil, h36]
    omega
  refine ⟨?_, ?_, ?_, ?_⟩
  · intro h
    have hh := congrArg List.length h
    rw [hlen] at hh
    simp only [List.length_nil] at hh
    omega
  · intro h
    have hh := congrArg List.length h
    rw [hlen] at hh
    simp only [List.length_cons, List.length_nil] at hh
    omega
  · intro h
    have hh := congrArg List.length h
    rw [hlen] at hh
    simp only [List.length_cons, List.length_nil] at hh
    omega
  · intro hmem
    simp +decide [String.data_append, hm, hmp, hus, hcs] at hmem

/-- C6 (counterexample): the allocated internalPaths are not always
distinct. Node `path.join` normalizes `..` segments, so the request with
compositionId `/../11111111-2222-3333-4444-555555555555-x` and uuid token
`aaaaaaaa-bbbb-cccc-dddd-eeeeeeeeeeee` is allocated exactly the path of
the request with compositionId `x` and the distinct length-36 uuid token
`11111111-2222-3333-4444-555555555555`; its cleanup then unlinks the other
request's file. -/
theorem c6_counterexample :
    ((handleRequest sampleConfig ⟨some "x", none⟩
        ⟨"11111111-2222-3333-4444-555555555555", 1, ⟨0, "", ""⟩,
          true, true, false, true⟩).outputPath =
      some "/srv/backend/output/11111111-2222-3333-4444-555555555555-x.mp4") ∧
    ((handleRequest sampleConfig
        ⟨some "/../11111111-2222-3333-4444-555555555555-x", none⟩
        ⟨"aaaaaaaa-bbbb-cccc-dddd-eeeeeeeeeeee", 2, ⟨0, "", ""⟩,
          true, true, false, true⟩).outputPath =
      some "/srv/backend/output/11111111-2222-3333-4444-555555555555-x.mp4") ∧
    ((handleRequest sampleConfig
        ⟨some "/../11111111-2222-3333-4444-555555555555-x", none⟩
        ⟨"aaaaaaaa-bbbb-cccc-dddd-eeeeeeeeeeee", 2, ⟨0, "", ""⟩,
          true, true, false, true⟩).unlinkAttempts =
      ["/srv/backend/output/11111111-2222-3333-4444-555555555555-x.mp4"]) ∧
    ("11111111-2222-3333-4444-555555555555" : String) ≠
      "aaaaaaaa-bbbb-cccc-dddd-eeeeeeeeeeee" ∧
    String.length "11111111-2222-3333-4444-555555555555" = 36 ∧
    String.length "aaaaaaaa-bbbb-cccc-dddd-eeeeeeeeeeee" = 36 := by
  refine ⟨by decide, by decide, by decide, by decide, by decide, by decide⟩

/-- C6 (amended): for requests whose compositionIds contain no path
separator (and whose uuid tokens are slash-free, of uuidv4 length 36, and
distinct, under a non-empty output directory), the allocated internalPaths
are distinct even for identical compositionIds, and every unlink a
request issues targets its own allocated path only. Without the
slash-free restriction the distinctness fails, since `path.join`
normalizes `..` segments. -/
theorem c6_distinct_paths_amended (cfg : Config) (r1 r2 : RenderRequest) (e1 e2 : Env)
    (hdir : cfg.outputDir ≠ "")
    (hc1 : isFalsyStr r1.compositionId = false)
    (hc2 : isFalsyStr r2.compositionId = false)
    (hs1 : ¬ '/' ∈ (r1.compositionId.getD "").data)
    (hs2 : ¬ '/' ∈ (r2.compositionId.getD "").data)
    (hu1 : ¬ '/' ∈ e1.uuid.data) (hu2 : ¬ '/' ∈ e2.uuid.data)
    (hl1 : e1.uuid.length = 36) (hl2 : e2.uuid.length = 36)
    (hne : e1.uuid ≠ e2.uuid) :
    (∀ p1 p2, (handleRequest cfg r1 e1).outputPath = some p1 →
      (handleRequest cfg r2 e2).outputPath = some p2 → p1 ≠ p2) ∧
    (∀ p, p ∈ (handleRequest cfg r1 e1).unlinkAttempts →
      (handleRequest cfg r1 e1).outputPath = some p) := by
  constructor
  · intro p1 p2 hp1 hp2
    rw [handleRequest_outputPath cfg r1 e1 hc1] at hp1
    rw [handleRequest_outputPath cfg r2 e2 hc2] at hp2
    rw [Option.some.injEq] at hp1 hp2
    subst hp1; subst hp2
    intro heq
    obtain ⟨hf1, hd1, hdd1, hsl1⟩ :=
      uuidFilename_facts e1.uuid (r1.compositionId.getD "") hl1 hu1 hs1
    obtain ⟨hf2, hd2, hdd2, hsl2⟩ :=
      uuidFilename_facts e2.uuid (r2.compositionId.getD "") hl2 hu2 hs2
    rw [pathJoin_normal_segment cfg.outputDir _ hdir hf1 hd1 hdd1 hsl1,
      pathJoin_normal_segment cfg.outputDir _ hdir hf2 hd2 hdd2 hsl2] at heq
    have hdata := renderNormalized_snoc_inj _ _ _ _ heq
    apply hne
    apply String.ext
    have hlen : e1.uuid.data.length = e2.uuid.data.length := by
      have ha : e1.uuid.data.length = 36 := hl1
      have hb : e2.uuid.data.length = 36 := hl2
      rw [ha, hb]
    simp only [String.data_append, List.append_assoc] at hdata
    have h3 := congrArg (List.take e1.uuid.data.length) hdata
    rw [List.take_left] at h3
    rw [hlen, List.take_left] at h3
    exact h3
  · intro p hp
    rw [handleRequest_outputPath cfg r1 e1 hc1]
    simp only [handleRequest, hc1, Bool.false_eq_true, if_false] at hp
    revert hp
    split
    · intro hp
      simp at hp
      simp [hp]
    · intro hp
      by_cases hf : e1.fileAfterRender = true
      · simp [hf] at hp
        simp [hp]
      · simp [hf] at hp

/-- Witness for the amended C6: two concrete slash-free requests with the
same compositionId and distinct uuid tokens allocate distinct paths. -/
theorem c6_distinct_paths_amended_witness :
    ("/srv/backend/output/11111111-2222-3333-4444-555555555555-intro.mp4" :
      String) ≠
    "/srv/backend/output/aaaaaaaa-bbbb-cccc-dddd-eeeeeeeeeeee-intro.mp4" :=
  (c6_distinct_paths_amended sampleConfig
      ⟨some "intro", none⟩ ⟨some "intro", some (Json.str "x")⟩
      ⟨"11111111-2222-3333-4444-555555555555", 1, ⟨0, "", ""⟩, true, true, false, true⟩
      ⟨"aaaaaaaa-bbbb-cccc-dddd-eeeeeeeeeeee", 2, ⟨0, "", ""⟩, true, true, false, true⟩
      (by decide) rfl rfl (by decide) (by decide) (by decide) (by decide)
      (by decide) (by decide) (by decide)).1 _ _ (by decide) (by decide)

/-- C7: when the render succeeded but delivery fails, the handler sends a
500 `Error sending the rendered file.` response exactly when headers were
not yet committed, sends nothing further when they were, never reports it
as the render-failure response, and still unlinks the output path. -/
theorem c7_delivery_failure_handling (cfg : Config) (req : RenderRequest) (env : Env)
    (hcid : isFalsyStr req.compositionId = false)
    (hok : runRemotionRender cfg (req.compositionId.getD "")
        (pathJoin cfg.outputDir (env.uuid ++ "-" ++ req.compositionId.getD "" ++ ".mp4"))
        req.inputProps env.exec = Except.ok ())
    (hfail : env.fileAfterRender = false ∨ env.transportOk = false) :
    ((env.fileAfterRender = false ∨ env.errAfterHeaders = false) →
      (handleRequest cfg req env).response =
        Response.jsonRes 500 "Error sending the rendered file." none) ∧
    (env.fileAfterRender = true → env.transportOk = false → env.errAfterHeaders = true →
      (handleRequest cfg req env).response = Response.abortedStream) ∧
    (∀ e, (handleRequest cfg req env).response ≠
      Response.jsonRes 500 "Video rendering failed." e) ∧
    (handleRequest cfg req env).unlinkAttempts =
      [pathJoin cfg.outputDir (env.uuid ++ "-" ++ req.compositionId.getD "" ++ ".mp4")] := by
  simp only [handleRequest, hcid, Bool.false_eq_true, if_false, hok]
  refine ⟨?_, ?_, ?_, ?_⟩
  · rintro (hf | hh)
    · simp [hf]
    · rcases hfail with hf | ht
      · simp [hf]
      · cases hb : env.fileAfterRender <;> simp [hb, ht, hh]
  · intro hf ht hh
    simp [hf, ht, hh]
  · intro e
    rcases hfail with hf | ht
    · simp [hf]
    · cases hb : env.fileAfterRender <;> cases hh : env.errAfterHeaders <;>
        simp [hb, ht, hh]
  · trivial

/-- Witness for C7: a concrete successful render whose delivery transport
fails before headers were committed gets the 500 delivery-error response. -/
theorem c7_delivery_failure_handling_witness :
    (handleRequest sampleConfig ⟨some "intro", none⟩
        ⟨"u1", 7, ⟨0, "", ""⟩, true, false, false, true⟩).response =
      Response.jsonRes 500 "Error sending the rendered file." none :=
  (c7_delivery_failure_handling sampleConfig ⟨some "intro", none⟩
      ⟨"u1", 7, ⟨0, "", ""⟩, true, false, false, true⟩ rfl rfl
      (Or.inr rfl)).1 (Or.inr rfl)

/-- C8: on a delivered render the suggested filename offered to the caller
is `compositionId-<timestamp>.mp4`, while the stored artifact path is
independent of the timestamp — the delivery name plays no role in
filesystem uniqueness. -/
theorem c8_delivery_name (cfg : Config) (req : RenderRequest) (env : Env)
    (hcid : isFalsyStr req.compositionId = false)
    (hok : runRemotionRender cfg (req.compositionId.getD "")
        (pathJoin cfg.outputDir (env.uuid ++ "-" ++ req.compositionId.getD "" ++ ".mp4"))
        req.inputProps env.exec = Except.ok ())
    (hfile : env.fileAfterRender = true) (htrans : env.transportOk = true) :
    (handleRequest cfg req env).response =
      Response.fileSent
        (pathJoin cfg.outputDir (env.uuid ++ "-" ++ req.compositionId.getD "" ++ ".mp4"))
        (req.compositionId.getD "" ++ "-" ++ toString env.now ++ ".mp4") ∧
    (∀ t, (handleRequest cfg req { env with now := t }).outputPath =
      (handleRequest cfg req env).outputPath) := by
  constructor
  · simp only [handleRequest, hcid, Bool.false_eq_true, if_false, hok]
    simp [hfile, htrans]
  · intro t
    rw [handleRequest_outputPath cfg req { env with now := t } hcid,
      handleRequest_outputPath cfg req env hcid]

/-- Witness for C8 at spec scenario 6: composition `intro` at timestamp 99
is offered as `intro-99.mp4`. -/
theorem c8_delivery_name_witness :
    (handleRequest sampleConfig ⟨some "intro", some (Json.obj [("title", Json.str "Hello")])⟩
        ⟨"u1", 99, ⟨0, "", ""⟩, true, true, false, true⟩).response =
      Response.fileSent "/srv/backend/output/u1-intro.mp4" "intro-99.mp4" :=
  (c8_delivery_name sampleConfig
      ⟨some "intro", some (Json.obj [("title", Json.str "Hello")])⟩
      ⟨"u1", 99, ⟨0, "", ""⟩, true, true, false, true⟩ rfl rfl rfl rfl).1

/-- C9: a non-empty compositionId is accepted as-is — the request proceeds
to the render, and the compositionId is interpolated verbatim and unquoted
(between a plain space on each side) into the shell command, and verbatim
into the artifact filename. -/
theorem c9_composition_id_verbatim (cfg : Config) (env : Env) (props : Option Json)
    (cid : String) (h : cid ≠ "") :
    (handleRequest cfg ⟨some cid, props⟩ env).renderInvoked = true ∧
    (handleRequest cfg ⟨some cid, props⟩ env).outputPath =
      some (pathJoin cfg.outputDir (env.uuid ++ "-" ++ cid ++ ".mp4")) ∧
    (∀ outPath, remotionCommand cfg cid outPath =
      ("npx remotion render \"" ++ cfg.remotionEntryPoint ++ "\" ") ++ cid ++
        (" \"" ++ outPath ++ "\"")) := by
  have hf : isFalsyStr (RenderRequest.mk (some cid) props).compositionId = false := by
    simp [isFalsyStr, h]
  refine ⟨?_, ?_, ?_⟩
  · simp only [handleRequest, hf, Bool.false_eq_true, if_false]
    split <;> rfl
  · rw [handleRequest_outputPath cfg ⟨some cid, props⟩ env hf]
    rfl
  · intro outPath
    apply String.ext
    simp [remotionCommand]

/-- Witness for C9: a compositionId carrying shell metacharacters lands
verbatim and unquoted in the command string. -/
theorem c9_composition_id_verbatim_witness :
    remotionCommand sampleConfig "intro; rm -rf x" "/srv/backend/output/u1.mp4" =
      ("npx remotion render \"" ++ sampleConfig.remotionEntryPoint ++ "\" ") ++
        "intro; rm -rf x" ++ (" \"" ++ "/srv/backend/output/u1.mp4" ++ "\"") :=
  (c9_composition_id_verbatim sampleConfig
      ⟨"u1", 7, ⟨0, "", ""⟩, true, true, false, true⟩ none
      "intro; rm -rf x" (by decide)).2.2 "/srv/backend/output/u1.mp4"

/-- C10: success classification never checks that a file exists — a
zero-exit, signature-free run is a render success even when no file was
written, and the missing file then surfaces as the 500
`Error sending the rendered file.` delivery error, never as the
render-failure response. -/
theorem c10_success_without_artifact (cfg : Config) (req : RenderRequest) (env : Env)
    (hcid : isFalsyStr req.compositionId = false)
    (hexit : env.exec.exitCode = 0)
    (hsig : jsIncludes (jsToLower env.exec.stderr) "error" = false)
    (hfile : env.fileAfterRender = false) :
    runRemotionRender cfg (req.compositionId.getD "")
      (pathJoin cfg.outputDir (env.uuid ++ "-" ++ req.compositionId.getD "" ++ ".mp4"))
      req.inputProps env.exec = Except.ok () ∧
    (handleRequest cfg req env).response =
      Response.jsonRes 500 "Error sending the rendered file." none ∧
    (∀ e, (handleRequest cfg req env).response ≠
      Response.jsonRes 500 "Video rendering failed." e) := by
  have hok := (runRemotionRender_ok_iff cfg (req.compositionId.getD "")
    (pathJoin cfg.outputDir (env.uuid ++ "-" ++ req.compositionId.getD "" ++ ".mp4"))
    req.inputProps env.exec).mpr ⟨hexit, hsig⟩
  refine ⟨hok, ?_, ?_⟩
  · simp only [handleRequest, hcid, Bool.false_eq_true, if_false, hok]
    simp [hfile]
  · intro e
    simp only [handleRequest, hcid, Bool.false_eq_true, if_false, hok]
    simp [hfile]

/-- Witness for C10: a concrete zero-exit run that wrote no file is still
classified as a success and ends in the delivery-error response. -/
theorem c10_success_without_artifact_witness :
    (handleRequest sampleConfig ⟨some "intro", none⟩
        ⟨"u1", 7, ⟨0, "done", "progress 50"⟩, false, true, false, true⟩).response =
      Response.jsonRes 500 "Error sending the rendered file." none :=
  (c10_success_without_artifact sampleConfig ⟨some "intro", none⟩
      ⟨"u1", 7, ⟨0, "done", "progress 50"⟩, false, true, false, true⟩
      rfl rfl (by decide) rfl).2.1

end RenderServer
